import Mathlib

/-!
Shallow embedding of the error-correcting timer engine `Timer<T>` from
`src/Timer.hpp`, together with proofs about its update/waitTime/pause/resume
behaviour.  The generic engine is instantiated in the repository at
`T = long long` (KernelTimer, signed 64-bit microseconds) and `T = Uint32`
(TimerSDL, unsigned 32-bit milliseconds).  We model the signed instantiation
with `Int` (exact arithmetic, faithful to `long long` for realistic values)
and the unsigned instantiation with `Nat` arithmetic modulo `2^32`.

Methods that sample the time source (`update`, `waitTime`, `reset`,
`resume`) are embedded as functions taking the sampled value `tnow`
explicitly; `start` samples via `reset` and, when the timer was paused,
again via `resume`, so it takes both potential samples.
-/

namespace TimerSpec

/-- The private state of `Timer<T>` (src/Timer.hpp lines 104-110):
`_interval, _t0, _t1, _terr, _tstart, _frames : T` and the flags
`_started, _paused : bool`. -/
structure TimerState where
  interval : Int
  t0 : Int
  t1 : Int
  terr : Int
  tstart : Int
  frames : Int
  started : Bool
  paused : Bool
deriving Repr, DecidableEq

/-- Constructor followed by `_init` (lines 146-154): `_interval = 0`, then
`reset()` seeds `t0 = t1 = tstart` from one sample `t` and zeroes
`terr`/`frames`; `started = paused = false`. -/
def mkTimer (t : Int) : TimerState :=
  { interval := 0, t0 := t, t1 := t, terr := 0, tstart := t, frames := 0,
    started := false, paused := false }

/-- `Timer<T>::update` (lines 174-238) with the time-source sample `tnow`
passed explicitly.  Returns the bool result together with the new state. -/
def update (tnow : Int) (s : TimerState) : Bool × TimerState :=
  if !s.started || s.paused then
    (false, s)
  else if tnow < s.t0 then
    -- the timer function has wrapped: reset the bases
    (false, { s with t0 := tnow, t1 := tnow, tstart := tnow })
  else if s.interval < s.terr then
    -- debt-repayment branch: clear the accumulator, credit one frame
    (true, { s with terr := 0, t0 := s.t1, t1 := tnow, frames := s.frames + 1 })
  else if s.interval - s.terr ≤ tnow - s.t0 then
    -- normal boundary branch
    (true, { s with
      terr := if tnow - s.t0 < s.interval - s.terr then 0
              else (tnow - s.t0) - (s.interval + s.terr),
      t0 := tnow, t1 := tnow, frames := s.frames + 1 })
  else
    (false, s)

/-- `Timer<T>::waitTime` (lines 373-382), a `const` method: a pure function
of the state and one fresh sample `tnow`; it mutates nothing. -/
def waitTime (tnow : Int) (s : TimerState) : Int :=
  if s.t0 + s.terr + s.interval < tnow then 0
  else (s.t0 + s.terr + s.interval) - tnow

/-- `Timer<T>::reset` (lines 390-397). -/
def reset (tnow : Int) (s : TimerState) : TimerState :=
  { s with t0 := tnow, t1 := tnow, tstart := tnow, terr := 0, frames := 0 }

/-- `Timer<T>::pause` (lines 287-290). -/
def pause (s : TimerState) : TimerState :=
  { s with paused := true }

/-- `Timer<T>::resume` (lines 298-312): only if paused, re-derive `t0`/`t1`
from a fresh sample so that the gap `t1 - t0` is preserved. -/
def resume (tnow : Int) (s : TimerState) : TimerState :=
  if s.paused then
    { s with t0 := tnow, t1 := tnow + (s.t1 - s.t0), paused := false }
  else s

/-- `Timer<T>::stop` (lines 264-269). -/
def stop (s : TimerState) : TimerState :=
  { s with interval := 0, started := false }

/-- `Timer<T>::start` (lines 248-256): assign the interval, `reset()`
(sampling `tReset`), `resume()` (sampling `tResume`, used only when the
timer was paused), then mark started. -/
def start (i tReset tResume : Int) (s : TimerState) : TimerState :=
  { resume tResume (reset tReset { s with interval := i }) with started := true }

/-- Feed a list of time-source samples to successive `update()` calls;
return the final state and the number of calls that returned `true`. -/
def runUpdates (s : TimerState) : List Int → TimerState × Nat
  | [] => (s, 0)
  | t :: ts =>
    let r := update t s
    let rest := runUpdates r.2 ts
    (rest.1, (if r.1 then 1 else 0) + rest.2)

/-- A reachable state used in several concrete instantiations:
`start(100)` at sample 0, then `update()` at sample 150, which takes the
normal boundary branch and leaves `t0 = t1 = 150`, `terr = 50`,
`frames = 1`. -/
def exState : TimerState := (update 150 (start 100 0 0 (mkTimer 0))).2

/-- A reachable state with `terr > interval`: `start(100)` at sample 0,
then `update()` at sample 1000, which stores `terr = 900`. -/
def debtState : TimerState := (update 1000 (start 100 0 0 (mkTimer 0))).2

/-! ### The unsigned 32-bit instantiation (`TimerSDL`, `T = Uint32`)

`src/TimerSDL.hpp` instantiates the same template at `T = Uint32`, SDL's
unsigned 32-bit millisecond tick type.  All arithmetic on `T` is then
performed modulo `2^32`; comparisons compare the reduced representatives.
-/

/-- `2^32`, the modulus of `Uint32` arithmetic. -/
def W : Nat := 4294967296

/-- `Uint32` subtraction `a - b`: computed modulo `2^32` (operands are
assumed reduced, i.e. `< W`). -/
def sub32 (a b : Nat) : Nat := (a + W - b) % W

/-- The state of `Timer<Uint32>`: all `T` fields hold reduced residues. -/
structure TimerStateU where
  interval : Nat
  t0 : Nat
  t1 : Nat
  terr : Nat
  tstart : Nat
  frames : Nat
  started : Bool
  paused : Bool
deriving Repr, DecidableEq

/-- `Timer<Uint32>::update` (same source lines 174-238), with every
subtraction and increment performed modulo `2^32`. -/
def updateU (tnow : Nat) (s : TimerStateU) : Bool × TimerStateU :=
  if !s.started || s.paused then
    (false, s)
  else if tnow < s.t0 then
    (false, { s with t0 := tnow, t1 := tnow, tstart := tnow })
  else if s.interval < s.terr then
    (true, { s with terr := 0, t0 := s.t1, t1 := tnow, frames := (s.frames + 1) % W })
  else if sub32 s.interval s.terr ≤ sub32 tnow s.t0 then
    (true, { s with
      terr := if sub32 tnow s.t0 < sub32 s.interval s.terr then 0
              else sub32 (sub32 tnow s.t0) ((s.interval + s.terr) % W),
      t0 := tnow, t1 := tnow, frames := (s.frames + 1) % W })
  else
    (false, s)

/-- A `Uint32` timer state in the normal branch with outstanding error:
`interval = 100`, `t0 = t1 = 0`, `terr = 50`. -/
def uState : TimerStateU :=
  { interval := 100, t0 := 0, t1 := 0, terr := 50, tstart := 0, frames := 0,
    started := true, paused := false }

/-- A `Uint32` timer state with extreme field values satisfying the
hypotheses of claim C10 but violating its conclusion. -/
def uBigState : TimerStateU :=
  { interval := 4294967295, t0 := 0, t1 := 0, terr := 4294967295, tstart := 0,
    frames := 0, started := true, paused := false }

/-! ### Branch characterisations of `update` -/

/-- If the timer is stopped or paused, `update()` is a no-op returning
false. -/
theorem upd_skip (tnow : Int) (s : TimerState)
    (h : s.started = false ∨ s.paused = true) :
    update tnow s = (false, s) := by
  unfold update
  rcases h with h | h <;> rw [h] <;> simp

/-- Wraparound branch: `tnow < t0` resets the three time bases and
returns false, leaving `terr`, `frames` and the flags untouched. -/
theorem upd_wrap (tnow : Int) (s : TimerState)
    (hs : s.started = true) (hp : s.paused = false) (hw : tnow < s.t0) :
    update tnow s = (false, { s with t0 := tnow, t1 := tnow, tstart := tnow }) := by
  unfold update
  rw [hs, hp]
  simp only [Bool.not_true, Bool.or_false]
  rw [if_neg (show ¬(false = true) by simp), if_pos hw]

/-- Debt-repayment branch: `interval < terr` clears the accumulator,
shifts `t0 = t1`, `t1 = tnow`, credits one frame, returns true. -/
theorem upd_debt (tnow : Int) (s : TimerState)
    (hs : s.started = true) (hp : s.paused = false)
    (hw : s.t0 ≤ tnow) (hd : s.interval < s.terr) :
    update tnow s =
      (true, { s with terr := 0, t0 := s.t1, t1 := tnow, frames := s.frames + 1 }) := by
  unfold update
  rw [hs, hp]
  simp only [Bool.not_true, Bool.or_false]
  rw [if_neg (show ¬(false = true) by simp), if_neg (not_lt.mpr hw), if_pos hd]

/-- Normal boundary branch: the stored error is
`(tnow - t0) - (interval + terr)` and `t0 = t1 = tnow`. -/
theorem upd_normal (tnow : Int) (s : TimerState)
    (hs : s.started = true) (hp : s.paused = false)
    (hw : s.t0 ≤ tnow) (hd : s.terr ≤ s.interval)
    (hb : s.interval - s.terr ≤ tnow - s.t0) :
    update tnow s =
      (true,
        { s with
            terr := (tnow - s.t0) - (s.interval + s.terr),
            t0 := tnow, t1 := tnow, frames := s.frames + 1 }) := by
  unfold update
  rw [hs, hp]
  simp only [Bool.not_true, Bool.or_false]
  rw [if_neg (show ¬(false = true) by simp), if_neg (not_lt.mpr hw),
    if_neg (not_lt.mpr hd), if_pos hb, if_neg (not_lt.mpr hb)]

/-- Not-yet-elapsed branch: nothing mutates, returns false. -/
theorem upd_noelapse (tnow : Int) (s : TimerState)
    (hs : s.started = true) (hp : s.paused = false)
    (hw : s.t0 ≤ tnow) (hd : s.terr ≤ s.interval)
    (hb : tnow - s.t0 < s.interval - s.terr) :
    update tnow s = (false, s) := by
  unfold update
  rw [hs, hp]
  simp only [Bool.not_true, Bool.or_false]
  rw [if_neg (show ¬(false = true) by simp), if_neg (not_lt.mpr hw),
    if_neg (not_lt.mpr hd), if_neg (not_le.mpr hb)]

/-- `update` never changes the `started` flag. -/
theorem upd_started (tnow : Int) (s : TimerState) :
    ((update tnow s).2).started = s.started := by
  unfold update
  split_ifs <;> rfl

/-- `update` never changes the `paused` flag. -/
theorem upd_paused (tnow : Int) (s : TimerState) :
    ((update tnow s).2).paused = s.paused := by
  unfold update
  split_ifs <;> rfl

/-- `update` never changes the `interval`. -/
theorem upd_interval (tnow : Int) (s : TimerState) :
    ((update tnow s).2).interval = s.interval := by
  unfold update
  split_ifs <;> rfl

/-- `frames` grows by one exactly on the calls that return true. -/
theorem upd_frames (tnow : Int) (s : TimerState) :
    ((update tnow s).2).frames =
      s.frames + (if (update tnow s).1 then 1 else 0) := by
  unfold update
  split_ifs <;> simp_all

/-- Over a run, the final frame count is the initial one plus the number
of `update()` calls that returned true. -/
theorem runUpdates_frames (ts : List Int) :
    ∀ s : TimerState,
      (runUpdates s ts).1.frames = s.frames + ((runUpdates s ts).2 : Int) := by
  induction ts with
  | nil => intro s; simp [runUpdates]
  | cons t ts ih =>
    intro s
    simp only [runUpdates]
    rw [ih, upd_frames]
    push_cast
    split <;> omega

/-- C5: `waitTime()` samples the time source once and returns exactly
`max(0, (t0 + tError + interval) - tnow)`.  (It is embedded as a pure
function of the state, mirroring the `const` method: no field mutates.) -/
theorem waitTime_eq_max (tnow : Int) (s : TimerState) :
    waitTime tnow s = max 0 (s.t0 + s.terr + s.interval - tnow) := by
  unfold waitTime
  split <;> omega

/-- C6: the example scenario with interval 100000 starting at sample 0:
update at 50000 is false and waitTime at 50000 is 50000; update at 100000
is true with frames = 1; update at 250000 is true with frames = 2 and
tError = 50000; update at 260000 is false. -/
theorem example_scenario :
    (update 50000 (start 100000 0 0 (mkTimer 0))).1 = false ∧
    waitTime 50000 (update 50000 (start 100000 0 0 (mkTimer 0))).2 = 50000 ∧
    (update 100000 (update 50000 (start 100000 0 0 (mkTimer 0))).2).1 = true ∧
    (update 100000 (update 50000 (start 100000 0 0 (mkTimer 0))).2).2.frames = 1 ∧
    (update 250000
      (update 100000 (update 50000 (start 100000 0 0 (mkTimer 0))).2).2).1 = true ∧
    (update 250000
      (update 100000 (update 50000 (start 100000 0 0 (mkTimer 0))).2).2).2.frames = 2 ∧
    (update 250000
      (update 100000 (update 50000 (start 100000 0 0 (mkTimer 0))).2).2).2.terr = 50000 ∧
    (update 260000
      (update 250000
        (update 100000 (update 50000 (start 100000 0 0 (mkTimer 0))).2).2).2).1 = false := by
  decide

/-- Debt-repayment branch of the `Uint32` instantiation. -/
theorem updU_debt (tnow : Nat) (s : TimerStateU)
    (hs : s.started = true) (hp : s.paused = false)
    (hw : s.t0 ≤ tnow) (hd : s.interval < s.terr) :
    updateU tnow s =
      (true,
        { s with
            terr := 0, t0 := s.t1, t1 := tnow,
            frames := (s.frames + 1) % W }) := by
  unfold updateU
  rw [hs, hp]
  simp only [Bool.not_true, Bool.or_false]
  rw [if_neg (show ¬(false = true) by simp), if_neg (not_lt.mpr hw), if_pos hd]

/-- C1 counterexample: at the reachable state `exState` (obtained by
`start(100)` at 0 and `update()` at 150: `t0 = 150`, `tError = 50`), the
sample 210 takes the normal boundary branch, but the stored `tError` is
`-90`, not the claimed `(tnow - t0) - (interval - tErrorOld) = 10`. -/
theorem normal_branch_claimed_formula_false :
    exState.started = true ∧ exState.paused = false ∧
    exState.t0 ≤ 210 ∧ exState.terr ≤ exState.interval ∧
    exState.interval - exState.terr ≤ 210 - exState.t0 ∧
    (update 210 exState).1 = true ∧
    ¬ (update 210 exState).2.terr =
        (210 - exState.t0) - (exState.interval - exState.terr) := by
  decide

/-- C1 (amended): in the normal boundary branch the stored `tError` is
`(tnow - t0) - (interval + tErrorOld)` (the code adds the old error to the
subtrahend instead of subtracting it); the call sets `t0 = t1 = tnow`,
increments `frames` and returns true. -/
theorem normal_branch_effect (tnow : Int) (s : TimerState)
    (hs : s.started = true) (hp : s.paused = false)
    (hw : s.t0 ≤ tnow) (hd : s.terr ≤ s.interval)
    (hb : s.interval - s.terr ≤ tnow - s.t0) :
    update tnow s =
      (true,
        { s with
            terr := (tnow - s.t0) - (s.interval + s.terr),
            t0 := tnow, t1 := tnow, frames := s.frames + 1 }) :=
  upd_normal tnow s hs hp hw hd hb

/-- Witness for the amended C1 at `exState` with sample 210. -/
theorem normal_branch_effect_witness :
    update 210 exState =
      (true,
        { exState with
            terr := (210 - exState.t0) - (exState.interval + exState.terr),
            t0 := 210, t1 := 210, frames := exState.frames + 1 }) :=
  normal_branch_effect 210 exState (by decide) (by decide) (by decide)
    (by decide) (by decide)

/-- C2 counterexample: `start(100)` at sample 0, then `update()` at
sample 1000 returns true and stores `tError = 900 > interval = 100`. -/
theorem terr_bound_claim_false :
    (update 1000 (start 100 0 0 (mkTimer 0))).1 = true ∧
    (update 1000 (start 100 0 0 (mkTimer 0))).2.interval
      < (update 1000 (start 100 0 0 (mkTimer 0))).2.terr := by
  decide

/-- C2 (amended): the one-interval bound on `tError` can be violated
immediately after a true-returning normal-branch `update()` (a single
large advance stores the whole overshoot), but the excess persists for at
most one call: in any started, unpaused state with `tError > interval`
and a sample `≥ t0`, `update()` returns true via the debt-repayment
branch and resets `tError` to 0. -/
theorem terr_excess_cleared_next_update (tnow : Int) (s : TimerState)
    (hs : s.started = true) (hp : s.paused = false)
    (hw : s.t0 ≤ tnow) (hd : s.interval < s.terr) :
    (update tnow s).1 = true ∧ (update tnow s).2.terr = 0 := by
  rw [upd_debt tnow s hs hp hw hd]
  exact ⟨rfl, rfl⟩

/-- Witness for the amended C2 at `debtState` (`tError = 900`,
`interval = 100`). -/
theorem terr_excess_cleared_next_update_witness :
    (update 1001 debtState).1 = true ∧ (update 1001 debtState).2.terr = 0 :=
  terr_excess_cleared_next_update 1001 debtState (by decide) (by decide)
    (by decide) (by decide)

/-- C3 counterexample: interval 100, started at 0, `update()` at 50
(false), `pause()`, `resume()` at 500; the update at 550 (resume time
plus half the interval) returns false, not true: the half-interval of
progress made before the pause was discarded by `resume()`. -/
theorem pause_resume_claim_false :
    (update 50 (start 100 0 0 (mkTimer 0))).1 = false ∧
    (update 550
      (resume 500 (pause (update 50 (start 100 0 0 (mkTimer 0))).2))).1 = false := by
  decide

/-- C3 (amended): `resume()` preserves the committed gap `t1 - t0`
measured at pause time (zero unless an elapsed-event intervened), not the
uncommitted wall-clock progress since `t0`: after start at `a`, a false
update at `a + I/2`, pause, and resume at `b`, the update at `b + I/2`
returns false, the update at `b + I` returns true (incrementing `frames`
to 1), and an immediate further update at `b + I` returns false — the
event fires a full interval after the resume, exactly once. -/
theorem pause_resume_gap_preserved (I a b : Int) (hI : 0 < I) :
    (update (a + I / 2) (start I a a (mkTimer a))).1 = false ∧
    (update (b + I / 2)
      (resume b (pause (update (a + I / 2) (start I a a (mkTimer a))).2))).1 = false ∧
    (update (b + I)
      (resume b (pause (update (a + I / 2) (start I a a (mkTimer a))).2))).1 = true ∧
    (update (b + I)
      (resume b (pause (update (a + I / 2) (start I a a (mkTimer a))).2))).2.frames = 1 ∧
    (update (b + I)
      (update (b + I)
        (resume b (pause (update (a + I / 2) (start I a a (mkTimer a))).2))).2).1
      = false := by
  have h0 : start I a a (mkTimer a) =
      { interval := I, t0 := a, t1 := a, terr := 0, tstart := a, frames := 0,
        started := true, paused := false } := by
    simp [start, reset, resume, mkTimer]
  rw [h0]
  have h1 : update (a + I / 2)
      ({ interval := I, t0 := a, t1 := a, terr := 0, tstart := a, frames := 0,
         started := true, paused := false } : TimerState) =
      (false,
        { interval := I, t0 := a, t1 := a, terr := 0, tstart := a, frames := 0,
          started := true, paused := false }) :=
    upd_noelapse _ _ rfl rfl (show a ≤ a + I / 2 by omega)
      (show (0 : Int) ≤ I by omega) (show a + I / 2 - a < I - 0 by omega)
  rw [h1]
  have h2 : resume b (pause
      ({ interval := I, t0 := a, t1 := a, terr := 0, tstart := a, frames := 0,
         started := true, paused := false } : TimerState)) =
      { interval := I, t0 := b, t1 := b, terr := 0, tstart := a, frames := 0,
        started := true, paused := false } := by
    simp [resume, pause]
  rw [h2]
  have h3 : update (b + I / 2)
      ({ interval := I, t0 := b, t1 := b, terr := 0, tstart := a, frames := 0,
         started := true, paused := false } : TimerState) =
      (false,
        { interval := I, t0 := b, t1 := b, terr := 0, tstart := a, frames := 0,
          started := true, paused := false }) :=
    upd_noelapse _ _ rfl rfl (show b ≤ b + I / 2 by omega)
      (show (0 : Int) ≤ I by omega) (show b + I / 2 - b < I - 0 by omega)
  have h4 := upd_normal (b + I)
      ({ interval := I, t0 := b, t1 := b, terr := 0, tstart := a, frames := 0,
         started := true, paused := false } : TimerState)
      rfl rfl (show b ≤ b + I by omega) (show (0 : Int) ≤ I by omega)
      (show I - 0 ≤ b + I - b by omega)
  have h5 := upd_noelapse (b + I)
      ({ interval := I, t0 := b + I, t1 := b + I, terr := b + I - b - (I + 0),
         tstart := a, frames := 0 + 1, started := true, paused := false } : TimerState)
      rfl rfl (show b + I ≤ b + I by omega)
      (show b + I - b - (I + 0) ≤ I by omega)
      (show b + I - (b + I) < I - (b + I - b - (I + 0)) by omega)
  rw [h3, h4, h5]
  refine ⟨rfl, rfl, rfl, by norm_num, rfl⟩

/-- Witness for the amended C3 at `I = 100`, `a = 0`, `b = 500`. -/
theorem pause_resume_gap_preserved_witness :
    (update 50 (start 100 0 0 (mkTimer 0))).1 = false ∧
    (update 550
      (resume 500 (pause (update 50 (start 100 0 0 (mkTimer 0))).2))).1 = false ∧
    (update 600
      (resume 500 (pause (update 50 (start 100 0 0 (mkTimer 0))).2))).1 = true ∧
    (update 600
      (resume 500 (pause (update 50 (start 100 0 0 (mkTimer 0))).2))).2.frames = 1 ∧
    (update 600
      (update 600
        (resume 500 (pause (update 50 (start 100 0 0 (mkTimer 0))).2))).2).1
      = false :=
  pause_resume_gap_preserved 100 0 500 (by decide)

/-- C4 counterexample: at the reachable state `exState` (`t0 = 150`,
`tError = 50`, `interval = 100`) with sample 200, `update()` would return
true, yet `waitTime()` with the same sample returns 100, not 0: `update`
subtracts `tError` from the threshold while `waitTime` adds it. -/
theorem waitTime_zero_claim_false :
    (update 200 exState).1 = true ∧ ¬ waitTime 200 exState = 0 := by
  decide

/-- C4 (amended): `waitTime()` is non-negative for every state, and the
implication holds in the converse direction: for a started, unpaused
state with `0 ≤ tError` and `0 ≤ interval`, `waitTime() = 0` implies that
`update()` with the same sample returns true. -/
theorem waitTime_nonneg_and_zero_elapses :
    (∀ (tnow : Int) (s : TimerState), 0 ≤ waitTime tnow s) ∧
    ∀ (tnow : Int) (s : TimerState), s.started = true → s.paused = false →
      0 ≤ s.terr → 0 ≤ s.interval → waitTime tnow s = 0 →
      (update tnow s).1 = true := by
  constructor
  · intro tnow s
    unfold waitTime
    split <;> omega
  · intro tnow s hs hp ht hi h0
    have hge : s.t0 + s.terr + s.interval ≤ tnow := by
      unfold waitTime at h0
      split at h0 <;> omega
    rcases lt_or_le s.interval s.terr with hd | hd
    · rw [upd_debt tnow s hs hp (by omega) hd]
    · rw [upd_normal tnow s hs hp (by omega) hd (by omega)]

/-- Witness for the amended C4 at `exState` with samples 0 and 300. -/
theorem waitTime_nonneg_and_zero_elapses_witness :
    0 ≤ waitTime 0 exState ∧ (update 300 exState).1 = true :=
  ⟨waitTime_nonneg_and_zero_elapses.1 0 exState,
   waitTime_nonneg_and_zero_elapses.2 300 exState (by decide) (by decide)
     (by decide) (by decide) (by decide)⟩

/-- C7: for a started, unpaused state, a sample `tnow < t0` makes
`update()` set `t0 = t1 = tStart = tnow` and return false (no error
channel exists and no elapsed duration is computed on this path), and a
subsequent call with sample `t2 ≥ tnow` (when `tError ≤ interval`)
detects an elapsed interval exactly when `t2 - tnow ≥ interval - tError`,
i.e. relative to the new baseline `tnow`. -/
theorem wraparound_recovery (tnow : Int) (s : TimerState)
    (hs : s.started = true) (hp : s.paused = false) (hw : tnow < s.t0) :
    update tnow s = (false, { s with t0 := tnow, t1 := tnow, tstart := tnow }) ∧
    ∀ t2 : Int, tnow ≤ t2 → s.terr ≤ s.interval →
      ((update t2 (update tnow s).2).1 = true ↔
        s.interval - s.terr ≤ t2 - tnow) := by
  have h1 := upd_wrap tnow s hs hp hw
  refine ⟨h1, fun t2 h2 hd => ?_⟩
  rw [h1]
  constructor
  · intro h
    by_contra hb
    rw [upd_noelapse t2 _ (by simpa using hs) (by simpa using hp)
      (by simpa using h2) (by simpa using hd) (by simp; omega)] at h
    simp at h
  · intro hb
    rw [upd_normal t2 _ (by simpa using hs) (by simpa using hp)
      (by simpa using h2) (by simpa using hd) (by simpa using hb)]

/-- Witness for C7: wraparound sample 100 at `exState` (`t0 = 150`),
then recovery at sample 200. -/
theorem wraparound_recovery_witness :
    (update 100 exState).1 = false ∧
    ((update 200 (update 100 exState).2).1 = true ↔
      exState.interval - exState.terr ≤ 200 - 100) := by
  have h := wraparound_recovery 100 exState (by decide) (by decide) (by decide)
  exact ⟨by rw [h.1], h.2 200 (by decide) (by decide)⟩

/-- C8: over any sequence of `update()` calls on a started, unpaused
timer, the final frame count equals the initial one plus the number of
calls that returned true (so `getFrames()` is non-decreasing and its
total increase counts the `true` returns). -/
theorem frames_monotone_count (s : TimerState) (ts : List Int)
    (hs : s.started = true) (hp : s.paused = false) :
    (runUpdates s ts).1.frames = s.frames + ((runUpdates s ts).2 : Int) ∧
    s.frames ≤ (runUpdates s ts).1.frames := by
  have h := runUpdates_frames ts s
  exact ⟨h, by omega⟩

/-- Witness for C8 on the sample list `[50, 150, 210, 1000]` from
`start(100)` at 0. -/
theorem frames_monotone_count_witness :
    (runUpdates (start 100 0 0 (mkTimer 0)) [50, 150, 210, 1000]).1.frames
      = (start 100 0 0 (mkTimer 0)).frames
        + ((runUpdates (start 100 0 0 (mkTimer 0)) [50, 150, 210, 1000]).2 : Int) ∧
    (start 100 0 0 (mkTimer 0)).frames
      ≤ (runUpdates (start 100 0 0 (mkTimer 0)) [50, 150, 210, 1000]).1.frames :=
  frames_monotone_count _ _ (by decide) (by decide)

/-- C9: whenever the normal boundary branch is entered (the debt check
ensured `tError ≤ interval` and the outer test `tnow - t0 ≥ interval -
tError` held), the inner condition `interval - tError > tnow - t0` is
false, so the `tError = 0` assignment is dead and `tError` is always
assigned `(tnow - t0) - (interval + tError)`. -/
theorem inner_zero_assignment_dead (tnow : Int) (s : TimerState)
    (hs : s.started = true) (hp : s.paused = false)
    (hw : s.t0 ≤ tnow) (hd : s.terr ≤ s.interval)
    (hb : s.interval - s.terr ≤ tnow - s.t0) :
    ¬ (tnow - s.t0 < s.interval - s.terr) ∧
    (update tnow s).2.terr = (tnow - s.t0) - (s.interval + s.terr) := by
  refine ⟨not_lt.mpr hb, ?_⟩
  rw [upd_normal tnow s hs hp hw hd hb]

/-- Witness for C9 at `exState` with sample 260. -/
theorem inner_zero_assignment_dead_witness :
    ¬ ((260 : Int) - exState.t0 < exState.interval - exState.terr) ∧
    (update 260 exState).2.terr = (260 - exState.t0) - (exState.interval + exState.terr) :=
  inner_zero_assignment_dead 260 exState (by decide) (by decide) (by decide)
    (by decide) (by decide)

/-- C10 counterexample: at the extreme `Uint32` configuration
`uBigState` (`interval = tError = 2^32 - 1`, `t0 = 0`) with sample 0,
every hypothesis of the claim holds, the branch fires, and the stored
`tError` is `2`: it does not exceed `interval`, and the immediately
following `update()` returns false, not true. -/
theorem u32_wrap_claim_false :
    0 < uBigState.terr ∧ uBigState.terr ≤ uBigState.interval ∧
    uBigState.t0 ≤ 0 ∧
    uBigState.interval - uBigState.terr ≤ 0 - uBigState.t0 ∧
    0 - uBigState.t0 < uBigState.interval + uBigState.terr ∧
    (updateU 0 uBigState).1 = true ∧
    (updateU 0 uBigState).2.terr = 2 ∧
    ¬ uBigState.interval < (updateU 0 uBigState).2.terr ∧
    (updateU 0 (updateU 0 uBigState).2).1 = false := by
  decide

/-- C10 (amended): in the `Uint32` instantiation, if the normal branch
fires with `0 < tError = e ≤ interval`, gap `g = tnow - t0` satisfying
`interval - e ≤ g < interval + e`, and additionally
`interval + 2e < 2^32` (true for every realistic SDL interval), then the
stored `tError` is `(g - interval - e) mod 2^32 = 2^32 - (interval + e -
g)`, a value exceeding `interval`, so the immediately following
`update()` call with any sample `≥` the new `t0` returns true via the
debt-repayment branch and resets `tError` to 0. -/
theorem u32_normal_branch_wraps_terr (tnow : Nat) (s : TimerStateU)
    (hs : s.started = true) (hp : s.paused = false)
    (h0 : s.t0 ≤ tnow) (hW : tnow < W)
    (he : 0 < s.terr) (hei : s.terr ≤ s.interval)
    (hlo : s.interval - s.terr ≤ tnow - s.t0)
    (hhi : tnow - s.t0 < s.interval + s.terr)
    (hbound : s.interval + 2 * s.terr < W) :
    (updateU tnow s).1 = true ∧
    (updateU tnow s).2.terr = W - (s.interval + s.terr - (tnow - s.t0)) ∧
    (((tnow : Int) - s.t0) - s.interval - s.terr) % (W : Int)
      = ((updateU tnow s).2.terr : Int) ∧
    s.interval < (updateU tnow s).2.terr ∧
    ∀ t2 : Nat, tnow ≤ t2 →
      (updateU t2 (updateU tnow s).2).1 = true ∧
      (updateU t2 (updateU tnow s).2).2.terr = 0 := by
  simp only [W] at hW hbound
  have hg : sub32 tnow s.t0 = tnow - s.t0 := by
    simp only [sub32, W]
    omega
  have hit : sub32 s.interval s.terr = s.interval - s.terr := by
    simp only [sub32, W]
    omega
  have hsum : (s.interval + s.terr) % W = s.interval + s.terr := by
    simp only [W]
    omega
  have hterr : sub32 (tnow - s.t0) (s.interval + s.terr)
      = W - (s.interval + s.terr - (tnow - s.t0)) := by
    simp only [sub32, W]
    omega
  have hbranch : updateU tnow s =
      (true,
        { s with
            terr := W - (s.interval + s.terr - (tnow - s.t0)),
            t0 := tnow, t1 := tnow, frames := (s.frames + 1) % W }) := by
    unfold updateU
    rw [hs, hp]
    simp only [Bool.not_true, Bool.or_false]
    rw [if_neg (show ¬(false = true) by simp), if_neg (not_lt.mpr h0),
      if_neg (not_lt.mpr hei), hg, hit, if_pos hlo, if_neg (not_lt.mpr hlo),
      hsum, hterr]
  have hexceed : s.interval < W - (s.interval + s.terr - (tnow - s.t0)) := by
    simp only [W]
    omega
  have hs2 : (updateU tnow s).2 =
      ({ s with
          terr := W - (s.interval + s.terr - (tnow - s.t0)),
          t0 := tnow, t1 := tnow, frames := (s.frames + 1) % W } : TimerStateU) := by
    rw [hbranch]
  refine ⟨?_, ?_, ?_, ?_, fun t2 ht2 => ?_⟩
  · rw [hbranch]
  · rw [hs2]
  · rw [hs2]
    show (((tnow : Int) - s.t0) - s.interval - s.terr) % (W : Int)
      = ((W - (s.interval + s.terr - (tnow - s.t0)) : Nat) : Int)
    simp only [W]
    omega
  · rw [hs2]
    exact hexceed
  · rw [hs2]
    rw [updU_debt t2
      ({ s with
          terr := W - (s.interval + s.terr - (tnow - s.t0)),
          t0 := tnow, t1 := tnow, frames := (s.frames + 1) % W } : TimerStateU)
      hs hp ht2 hexceed]
    exact ⟨rfl, rfl⟩

/-- Witness for the amended C10 at `uState` (`interval = 100`,
`tError = 50`, `t0 = 0`) with sample 60 (gap 60 in `[50, 150)`). -/
theorem u32_normal_branch_wraps_terr_witness :
    (updateU 60 uState).1 = true ∧
    uState.interval < (updateU 60 uState).2.terr ∧
    (updateU 60 (updateU 60 uState).2).1 = true ∧
    (updateU 60 (updateU 60 uState).2).2.terr = 0 := by
  have h := u32_normal_branch_wraps_terr 60 uState rfl rfl (by decide)
    (by decide) (by decide) (by decide) (by decide) (by decide) (by decide)
  exact ⟨h.1, h.2.2.2.1, (h.2.2.2.2 60 (by decide)).1, (h.2.2.2.2 60 (by decide)).2⟩

end TimerSpec
